import Mathlib

/-!
Verification of src/save-POST.py (a Python 2 CGI script; the bare
print statement on its last line pins the interpreter to Python 2).

The script reads an HTTP POST body from stdin, classifies it as JSON or
opaque text by attempting json.loads, and writes the (pretty-printed or
verbatim) content plus one trailing newline to two files: a uniquely
named file (timestamp + uuid in the name, extension .json or .txt by
classification) and a fixed "latest" file (always _latest.txt).

Modelling notes:
 - JSON numbers are restricted to integer numerals. Inputs containing
   fractional or exponent numerals (floats), or NaN/Infinity literals,
   are outside the model: Python would parse them to floats, whose
   serialisation is floating-point behaviour we do not embed.
 - Unicode escape sequences denoting lone surrogates are outside the
   model (a Lean Char cannot hold a surrogate code point).
 - Python 2's json.dumps with indent=4 and default separators emits the
   item separator ", " before each newline, i.e. a trailing space after
   every comma at end of line; the encoder below reproduces that.
 - I/O failure points of the script (the two opens, the content writes,
   the unprotected trailing-newline writes and closes on lines 92-95)
   are modelled by Boolean fault flags in an environment record.
-/

namespace SavePost

mutual

/-- A JSON document as produced by the structured parse: the generic
tree of maps, sequences, strings, integers, booleans and null
(numbers restricted to integers, see the module docstring). -/
inductive Json where
  | null : Json
  | bool : Bool → Json
  | num : Int → Json
  | str : String → Json
  | arr : List Json → Json
  | obj : JsonMembers → Json

/-- The key-value bindings of a JSON object, in insertion order. -/
inductive JsonMembers where
  | nil : JsonMembers
  | cons : String → Json → JsonMembers → JsonMembers

end

/-- Remove every binding of key k, as assignment into a Python dict
replaces an existing binding. -/
def JsonMembers.removeKey (k : String) : JsonMembers → JsonMembers
  | .nil => .nil
  | .cons a v rest =>
    if a == k then JsonMembers.removeKey k rest
    else .cons a v (JsonMembers.removeKey k rest)

/-- Append one binding at the end. -/
def JsonMembers.snoc : JsonMembers → String → Json → JsonMembers
  | .nil, k, v => .cons k v .nil
  | .cons a b rest, k, v => .cons a b (JsonMembers.snoc rest k v)

/-- Whether an object has no members. -/
def JsonMembers.isNil : JsonMembers → Bool
  | .nil => true
  | .cons _ _ _ => false

/-- JSON whitespace, per the grammar used by json.loads. -/
def isJsonWs (c : Char) : Bool :=
  c = ' ' || c = '\t' || c = '\n' || c = '\r'

/-- Drop leading JSON whitespace. -/
def skipWs : List Char → List Char
  | [] => []
  | c :: cs => if isJsonWs c then skipWs cs else c :: cs

/-- Value of a hexadecimal digit. -/
def hexVal (c : Char) : Option Nat :=
  if '0' ≤ c ∧ c ≤ '9' then some (c.toNat - 48)
  else if 'a' ≤ c ∧ c ≤ 'f' then some (c.toNat - 87)
  else if 'A' ≤ c ∧ c ≤ 'F' then some (c.toNat - 55)
  else none

/-- Parse exactly four hexadecimal digits (the XXXX of a \u escape). -/
def parseU : List Char → Option (Nat × List Char)
  | a :: b :: c :: d :: rest =>
    match hexVal a, hexVal b, hexVal c, hexVal d with
    | some ha, some hb, some hc, some hd =>
        some (4096 * ha + 256 * hb + 16 * hc + hd, rest)
    | _, _, _, _ => none
  | _ => none

/-- Parse the body of a JSON string after the opening quote, in strict
mode (raw control characters rejected), handling the standard escapes
and \u sequences with surrogate-pair combination. Returns the decoded
characters and the input remaining after the closing quote. -/
def parseStrBody : Nat → List Char → Option (List Char × List Char)
  | 0, _ => none
  | _, [] => none
  | f + 1, c :: cs =>
    if c = '"' then some ([], cs)
    else if c = '\\' then
      match cs with
      | [] => none
      | e :: cs2 =>
        let esc : Option (Char × List Char) :=
          if e = '"' then some ('"', cs2)
          else if e = '\\' then some ('\\', cs2)
          else if e = '/' then some ('/', cs2)
          else if e = 'b' then some (Char.ofNat 8, cs2)
          else if e = 'f' then some (Char.ofNat 12, cs2)
          else if e = 'n' then some ('\n', cs2)
          else if e = 'r' then some ('\r', cs2)
          else if e = 't' then some ('\t', cs2)
          else if e = 'u' then
            match parseU cs2 with
            | none => none
            | some (n, r1) =>
              if 0xd800 ≤ n ∧ n ≤ 0xdbff then
                match r1 with
                | '\\' :: 'u' :: r2 =>
                  match parseU r2 with
                  | some (m, r3) =>
                    if 0xdc00 ≤ m ∧ m ≤ 0xdfff then
                      some (Char.ofNat (0x10000 + (n - 0xd800) * 1024 + (m - 0xdc00)), r3)
                    else none
                  | none => none
                | _ => none
              else if 0xdc00 ≤ n ∧ n ≤ 0xdfff then none
              else some (Char.ofNat n, r1)
          else none
        match esc with
        | none => none
        | some (ch, rest) =>
          match parseStrBody f rest with
          | some (out, rest2) => some (ch :: out, rest2)
          | none => none
    else if c.toNat < 0x20 then none
    else
      match parseStrBody f cs with
      | some (out, rest) => some (c :: out, rest)
      | none => none

/-- Accumulate a run of decimal digits. -/
def takeDigits : List Char → List Char × List Char
  | [] => ([], [])
  | c :: cs =>
    if '0' ≤ c ∧ c ≤ '9' then
      let p := takeDigits cs
      (c :: p.1, p.2)
    else ([], c :: cs)

/-- Numeric value of a digit string. -/
def digitsVal : List Char → Nat → Nat
  | [], acc => acc
  | c :: cs, acc => digitsVal cs (10 * acc + (c.toNat - 48))

/-- Parse an unsigned JSON integer numeral: 0, or a nonzero digit
followed by digits (the 0|[1-9][0-9]* part of the number grammar). -/
def parseNat : List Char → Option (Nat × List Char)
  | [] => none
  | c :: cs =>
    if c = '0' then some (0, cs)
    else if '1' ≤ c ∧ c ≤ '9' then
      let p := takeDigits cs
      some (digitsVal (c :: p.1) 0, p.2)
    else none

mutual

/-- Recursive-descent parse of one JSON value (no leading whitespace),
mirroring the grammar accepted by json.loads restricted to integer
numbers. Fuel bounds the recursion depth; loads supplies enough. -/
def parseVal : Nat → List Char → Option (Json × List Char)
  | 0, _ => none
  | f + 1, cs =>
    match cs with
    | [] => none
    | c :: cs1 =>
      if c = '\x7b' then
        match skipWs cs1 with
        | d :: cs3 =>
          if d = '\x7d' then some (.obj .nil, cs3)
          else parseObjItems f (d :: cs3) .nil
        | [] => none
      else if c = '[' then
        match skipWs cs1 with
        | d :: cs3 =>
          if d = ']' then some (.arr [], cs3)
          else parseArrItems f (d :: cs3) []
        | [] => none
      else if c = '"' then
        match parseStrBody (cs1.length + 1) cs1 with
        | some (out, rest) => some (.str (String.mk out), rest)
        | none => none
      else if c = 't' then
        match cs1 with
        | 'r' :: 'u' :: 'e' :: rest => some (.bool true, rest)
        | _ => none
      else if c = 'f' then
        match cs1 with
        | 'a' :: 'l' :: 's' :: 'e' :: rest => some (.bool false, rest)
        | _ => none
      else if c = 'n' then
        match cs1 with
        | 'u' :: 'l' :: 'l' :: rest => some (.null, rest)
        | _ => none
      else if c = '-' then
        match parseNat cs1 with
        | some (n, rest) => some (.num (-(n : Int)), rest)
        | none => none
      else
        match parseNat (c :: cs1) with
        | some (n, rest) => some (.num (n : Int), rest)
        | none => none

/-- Parse the remaining items of a nonempty JSON array. -/
def parseArrItems : Nat → List Char → List Json → Option (Json × List Char)
  | 0, _, _ => none
  | f + 1, cs, acc =>
    match parseVal f cs with
    | none => none
    | some (v, rest) =>
      match skipWs rest with
      | ',' :: rest3 => parseArrItems f (skipWs rest3) (acc ++ [v])
      | ']' :: rest3 => some (.arr (acc ++ [v]), rest3)
      | _ => none

/-- Parse the remaining members of a nonempty JSON object. A duplicate
key overwrites the earlier binding, as assignment into a Python dict
does. -/
def parseObjItems : Nat → List Char → JsonMembers → Option (Json × List Char)
  | 0, _, _ => none
  | f + 1, cs, acc =>
    match cs with
    | '"' :: cs1 =>
      match parseStrBody (cs1.length + 1) cs1 with
      | none => none
      | some (kout, rest) =>
        match skipWs rest with
        | ':' :: rest3 =>
          match parseVal f (skipWs rest3) with
          | none => none
          | some (v, rest4) =>
            let k := String.mk kout
            let acc2 := (acc.removeKey k).snoc k v
            match skipWs rest4 with
            | ',' :: rest6 => parseObjItems f (skipWs rest6) acc2
            | '\x7d' :: rest6 => some (.obj acc2, rest6)
            | _ => none
        | _ => none
    | _ => none

end

/-- Model of json.loads (restricted as described in the module
docstring): skip leading whitespace, parse one value, and require that
only whitespace remains; any failure yields none (Python raises, and
the script's except clause treats the input as opaque). -/
def loads (s : String) : Option Json :=
  match parseVal (2 * s.length + 2) (skipWs s.data) with
  | some (j, rest) => if skipWs rest = [] then some j else none
  | none => none

/-- Lowercase hexadecimal digit. -/
def toHexDigit (n : Nat) : Char :=
  if n < 10 then Char.ofNat (48 + n) else Char.ofNat (87 + n)

/-- Four-digit lowercase hexadecimal rendering, as in a \uXXXX escape. -/
def toHex4 (n : Nat) : String :=
  String.mk [toHexDigit (n / 4096 % 16), toHexDigit (n / 256 % 16),
             toHexDigit (n / 16 % 16), toHexDigit (n % 16)]

/-- Escape one character the way Python 2's encode_basestring_ascii
does (ensure_ascii=True): short escapes for the usual controls, raw
printable ASCII, \uXXXX otherwise, surrogate pairs beyond the BMP. -/
def escapeChar (c : Char) : String :=
  if c = '"' then "\\\""
  else if c = '\\' then "\\\\"
  else if c = '\n' then "\\n"
  else if c = '\r' then "\\r"
  else if c = '\t' then "\\t"
  else if c = Char.ofNat 8 then "\\b"
  else if c = Char.ofNat 12 then "\\f"
  else if 0x20 ≤ c.toNat ∧ c.toNat ≤ 0x7e then String.mk [c]
  else if c.toNat < 0x10000 then "\\u" ++ toHex4 c.toNat
  else
    "\\u" ++ toHex4 (0xd800 + (c.toNat - 0x10000) / 1024) ++
    "\\u" ++ toHex4 (0xdc00 + (c.toNat - 0x10000) % 1024)

/-- Serialise a string with surrounding quotes, ensure_ascii escaping. -/
def encodeString (s : String) : String :=
  "\"" ++ String.join (s.data.map escapeChar) ++ "\""

/-- Indentation for nesting level n with indent=4. -/
def indentStr (n : Nat) : String := String.mk (List.replicate (4 * n) ' ')

/-- Code-point-wise lexicographic comparison of character lists, the
order Python applies when sorting unicode keys. -/
def leChars : List Char → List Char → Bool
  | [], _ => true
  | _ :: _, [] => false
  | a :: as, b :: bs =>
    if a.toNat < b.toNat then true
    else if b.toNat < a.toNat then false
    else leChars as bs

/-- Key order used by sorted() on dict keys: code-point lexicographic. -/
def keyLe (a b : String) : Bool := leChars a.data b.data

/-- Insert one already-serialised member into a key-sorted list. -/
def insortKey (p : String × String) : List (String × String) → List (String × String)
  | [] => [p]
  | q :: qs => if keyLe p.1 q.1 then p :: q :: qs else q :: insortKey p qs

/-- Sort already-serialised object members by key (code-point order,
as Python's sorted applies to the unique keys of a dict). -/
def sortByKey : List (String × String) → List (String × String)
  | [] => []
  | p :: ps => insortKey p (sortByKey ps)

mutual

/-- Serialise one JSON value at nesting level d, as Python 2's
json.dumps(value, sort_keys=True, indent=4) does: members and items
one per line, four spaces per level, object members sorted by raw key
(not by its escaped form), and the default item separator ", " kept,
so each comma is followed by a space at the end of its line. -/
def dumpVal : Nat → Json → String
  | _, .null => "null"
  | _, .bool true => "true"
  | _, .bool false => "false"
  | _, .num n => toString n
  | _, .str s => encodeString s
  | d, .arr l =>
      if l.isEmpty then "[]"
      else
        "[\n" ++ indentStr (d + 1) ++
        String.intercalate (", \n" ++ indentStr (d + 1)) (dumpList (d + 1) l) ++
        "\n" ++ indentStr d ++ "]"
  | d, .obj ms =>
      if ms.isNil then "\x7b\x7d"
      else
        "\x7b\n" ++ indentStr (d + 1) ++
        String.intercalate (", \n" ++ indentStr (d + 1))
          ((sortByKey (dumpMembers (d + 1) ms)).map (fun kv => kv.2)) ++
        "\n" ++ indentStr d ++ "\x7d"

/-- Serialise the items of an array, in order. -/
def dumpList : Nat → List Json → List String
  | _, [] => []
  | d, x :: xs => dumpVal d x :: dumpList d xs

/-- Serialise the members of an object: the raw key (Python sorts by
the raw key, not by its escaped form) paired with the rendered member
text — encoded key, colon, space, value. -/
def dumpMembers : Nat → JsonMembers → List (String × String)
  | _, .nil => []
  | d, .cons k v ps =>
      (k, encodeString k ++ ": " ++ dumpVal d v) :: dumpMembers d ps

end

/-- Model of json.dumps(json_data, sort_keys = True, indent = 4) as the
script calls it on lines 83-84. -/
def dumps (j : Json) : String := dumpVal 0 j

/-- The content the script writes to each file before the trailing
newline: the pretty-printed document when json.loads succeeds (lines
82-84), the raw input otherwise (lines 85-87). -/
def contentOf (post_data : String) : String :=
  match loads post_data with
  | some j => dumps j
  | none => post_data

/-- The ParsedForm classification of lines 63-70: Structured with the
parsed document when json.loads succeeds, Opaque with the raw text on
any parse failure. -/
inductive Classified where
  | structured : Json → Classified
  | opaque_ : String → Classified

/-- Classify a submission exactly as the try/except on lines 63-70
does. -/
def classify (post_data : String) : Classified :=
  match loads post_data with
  | some j => .structured j
  | none => .opaque_ post_data

/-- The hard-coded output directory (lines 53-54). -/
def baseDir : String := "/home/w/u/wuensch/public_html/tmp/save-POST_incoming/"

/-- os.path.basename(__file__) for this script (line 51). -/
def my_name : String := "save-POST.py"

/-- The Content-Type header payload printed first (line 49). -/
def header : String := "Content-Type: text/plain\n"

/-- The message printed when reading fails or yields nothing (line 60). -/
def emptyInputMsg : String := "Error: Did not get form POST data."

/-- The message printed when an open fails (line 76). -/
def openFailMsg : String := "Error: Could not open output file / files for writing."

/-- The line printed when a content write fails (line 89): the format
string interpolates the exception text and ends in a newline of its
own. -/
def writeFailLine (e : String) : String :=
  "Error: Could not write to output file / files: " ++ e ++ "\n"

/-- Fault environment for one invocation: which of the script's
fallible I/O operations succeed. openTimestampOk / openLatestOk are
the two opens (lines 73-74), writeOk the content writes inside the
try on lines 79-90, writeNlOk the unprotected trailing-newline writes
(lines 92-93), closeTsOk the unprotected close of the timestamp
handle (line 94), closeLatestOk the unprotected close of the latest
handle (line 95, reached only if line 94's close returned). errText
is the text of the exception interpolated on line 89. -/
structure Env where
  openTimestampOk : Bool
  openLatestOk : Bool
  writeOk : Bool
  writeNlOk : Bool
  closeTsOk : Bool
  closeLatestOk : Bool
  errText : String

/-- The environment in which every I/O operation succeeds. -/
def envAll : Env :=
  { openTimestampOk := true, openLatestOk := true, writeOk := true,
    writeNlOk := true, closeTsOk := true, closeLatestOk := true, errText := "" }

/-- Observable result of one invocation. stdout lists the payloads of
the print calls in order. tsFile / latestFile are the contents of the
two target files, none when the file was never created. tsHandle /
latestHandle track the handles: none = never opened, some false =
opened but not closed when the process ended, some true = closed.
uncaught marks termination by an exception no handler caught (lines
92-95 sit outside every try block). -/
structure Outcome where
  stdout : List String
  exitCode : Nat
  tsPath : String
  latestPath : String
  tsFile : Option String
  latestFile : Option String
  tsHandle : Option Bool
  latestHandle : Option Bool
  uncaught : Bool
deriving DecidableEq

/-- Shallow embedding of main() (lines 47-97) together with the
process exit protocol of line 101. stdin is none when sys.stdin.read()
itself raises, some s when it returns s; timestamp and uuidHex stand
for str(time.time()) and uuid.uuid4().hex on line 52. A write that
fails is modelled as leaving its file unchanged. On the paths where an
unprotected operation (trailing-newline write or close) raises, the
interpreter prints no further stdout line and the process exits 1.
The two closes run in sequence: line 95 is reached only after line
94's close returned, so when only the latest close raises, the
timestamp handle has already been closed (some true) while the latest
handle has not. -/
def main (stdin : Option String) (timestamp uuidHex : String) (env : Env) : Outcome :=
  let unique_str := "_" ++ timestamp ++ "_" ++ uuidHex
  let tsBase := baseDir ++ my_name ++ unique_str
  let latest := baseDir ++ my_name ++ "_latest.txt"
  match stdin with
  | none =>
    { stdout := [header, emptyInputMsg], exitCode := 1,
      tsPath := tsBase, latestPath := latest,
      tsFile := none, latestFile := none,
      tsHandle := none, latestHandle := none, uncaught := false }
  | some post_data =>
    if post_data = "" then
      { stdout := [header, emptyInputMsg], exitCode := 1,
        tsPath := tsBase, latestPath := latest,
        tsFile := none, latestFile := none,
        tsHandle := none, latestHandle := none, uncaught := false }
    else
      let is_JSON := (loads post_data).isSome
      let tsPath := tsBase ++ (if is_JSON then ".json" else ".txt")
      if env.openTimestampOk then
        if env.openLatestOk then
          let content := contentOf post_data
          if env.writeOk then
            if env.writeNlOk then
              if env.closeTsOk then
                if env.closeLatestOk then
                  { stdout := [header, "OK"], exitCode := 0,
                    tsPath := tsPath, latestPath := latest,
                    tsFile := some (content ++ "\n"),
                    latestFile := some (content ++ "\n"),
                    tsHandle := some true, latestHandle := some true,
                    uncaught := false }
                else
                  { stdout := [header], exitCode := 1,
                    tsPath := tsPath, latestPath := latest,
                    tsFile := some (content ++ "\n"),
                    latestFile := some (content ++ "\n"),
                    tsHandle := some true, latestHandle := some false,
                    uncaught := true }
              else
                { stdout := [header], exitCode := 1,
                  tsPath := tsPath, latestPath := latest,
                  tsFile := some (content ++ "\n"),
                  latestFile := some (content ++ "\n"),
                  tsHandle := some false, latestHandle := some false,
                  uncaught := true }
            else
              { stdout := [header], exitCode := 1,
                tsPath := tsPath, latestPath := latest,
                tsFile := some content, latestFile := some content,
                tsHandle := some false, latestHandle := some false,
                uncaught := true }
          else
            { stdout := [header, writeFailLine env.errText], exitCode := 1,
              tsPath := tsPath, latestPath := latest,
              tsFile := some "", latestFile := some "",
              tsHandle := some false, latestHandle := some false,
              uncaught := false }
        else
          { stdout := [header, openFailMsg], exitCode := 1,
            tsPath := tsPath, latestPath := latest,
            tsFile := some "", latestFile := none,
            tsHandle := some false, latestHandle := none,
            uncaught := false }
      else
        { stdout := [header, openFailMsg], exitCode := 1,
          tsPath := tsPath, latestPath := latest,
          tsFile := none, latestFile := none,
          tsHandle := none, latestHandle := none, uncaught := false }

/-- A stdout payload that is an authoritative result indicator: an
Error: line or the success token OK. -/
def hasErrMark : List Char → Bool
  | 'E' :: 'r' :: 'r' :: 'o' :: 'r' :: ':' :: ' ' :: _ => true
  | _ => false

/-- Whether a printed payload is the authoritative result line. -/
def isResultLine (l : String) : Bool := hasErrMark l.data || (l == "OK")

/-- The authoritative result lines among an outcome's stdout. -/
def resultLines (o : Outcome) : List String := o.stdout.filter isResultLine

/-- The structured input of the spec's worked example. -/
def exInput : String := "\x7b\"b\": 1, \"a\": 2\x7d"

/-- The document json.loads produces for exInput. -/
def exJson : Json := .obj (.cons "b" (.num 1) (.cons "a" (.num 2) .nil))

/-- What the script actually stores for exInput: Python 2 json.dumps
keeps the default item separator ", ", so a space follows the comma at
the end of the first member line. -/
def exStored : String := "\x7b\n    \"a\": 2, \n    \"b\": 1\n\x7d\n"

/-- The stored text the spec claims for exInput (no space after the
comma). -/
def exClaimed : String := "\x7b\n    \"a\": 2,\n    \"b\": 1\n\x7d\n"

/-- The fault environment in which the content writes of lines 82-87
raise while everything else succeeds. -/
def envWriteFail : Env := { envAll with writeOk := false, errText := "disk full" }

/-- The fault environment in which the unprotected trailing-newline
write of line 92 raises while everything before it succeeds. -/
def envNlFail : Env := { envAll with writeNlOk := false }

/-- A string ending in ".txt" never equals a string ending in ".json":
their final characters differ. -/
theorem append_txt_ne_append_json (a b : String) : a ++ ".txt" ≠ b ++ ".json" := by
  intro h
  have h2 : (a ++ ".txt").data.reverse = (b ++ ".json").data.reverse := by rw [h]
  rw [show (a ++ ".txt").data = a.data ++ ['.', 't', 'x', 't'] from rfl,
      show (b ++ ".json").data = b.data ++ ['.', 'j', 's', 'o', 'n'] from rfl] at h2
  simp [List.reverse_append] at h2

/-- The empty string does not parse as a structured document. -/
theorem loads_empty : loads "" = none := rfl

/-- The write-failure message of line 89 is an Error: line whatever
exception text it interpolates. -/
theorem isResultLine_writeFailLine (m : String) : isResultLine (writeFailLine m) = true := rfl

/-- Claim C4: for empty input the script prints the error line about
missing POST data after the Content-Type header, exits with code 1,
and neither output file is created or modified (the empty-input check
on line 58 fires before any file is opened). -/
theorem C4_empty_input (t u : String) (env : Env) :
    (main (some "") t u env).stdout = [header, emptyInputMsg] ∧
    (main (some "") t u env).exitCode = 1 ∧
    (main (some "") t u env).tsFile = none ∧
    (main (some "") t u env).latestFile = none ∧
    (main (some "") t u env).tsHandle = none ∧
    (main (some "") t u env).latestHandle = none :=
  ⟨rfl, rfl, rfl, rfl, rfl, rfl⟩

/-- Claim C9: a failure of the stdin read itself (lines 56-61 catch
every exception of the read and of the emptiness assertion alike) is
reported exactly like empty input: the same outcome, the same message
"Error: Did not get form POST data.", exit code 1. -/
theorem C9_read_failure_indistinguishable (t u : String) (env : Env) :
    main none t u env = main (some "") t u env ∧
    (main none t u env).stdout = [header, emptyInputMsg] ∧
    (main none t u env).exitCode = 1 :=
  ⟨rfl, rfl, rfl⟩

/-- Claim C10: the contents written to the two output files are a
function of the stdin bytes and the fault environment alone; the
timestamp and the random token of line 52 only enter the unique
filename, so two runs on identical input store byte-identical file
bodies. -/
theorem C10_content_deterministic (stdin : Option String) (t1 u1 t2 u2 : String) (env : Env) :
    (main stdin t1 u1 env).tsFile = (main stdin t2 u2 env).tsFile ∧
    (main stdin t1 u1 env).latestFile = (main stdin t2 u2 env).latestFile := by
  cases stdin with
  | none => exact ⟨rfl, rfl⟩
  | some s =>
    by_cases hs : s = ""
    · subst hs; exact ⟨rfl, rfl⟩
    · obtain ⟨o1, o2, w, wn, cl1, cl2, m⟩ := env
      cases o1 <;> cases o2 <;> cases w <;> cases wn <;> cases cl1 <;> cases cl2 <;>
        simp [main, hs]

/-- Claim C3: a non-empty input on which json.loads fails is written
verbatim to both files (lines 86-87), each followed by exactly one
trailing newline (lines 92-93), so the two files are byte-for-byte
identical and equal the input plus one newline. -/
theorem C3_opaque_passthrough (s t u : String) (env : Env)
    (hs : s ≠ "") (hp : loads s = none)
    (h1 : env.openTimestampOk = true) (h2 : env.openLatestOk = true)
    (h3 : env.writeOk = true) (h4 : env.writeNlOk = true)
    (h5 : env.closeTsOk = true) (h6 : env.closeLatestOk = true) :
    (main (some s) t u env).tsFile = some (s ++ "\n") ∧
    (main (some s) t u env).latestFile = some (s ++ "\n") := by
  obtain ⟨o1, o2, w, wn, cl1, cl2, m⟩ := env
  cases o1 <;> cases o2 <;> cases w <;> cases wn <;> cases cl1 <;> cases cl2 <;>
    simp_all [main, contentOf]

/-- Witness for C3 at the spec's own example "hello world". -/
theorem C3_witness :
    loads "hello world" = none ∧
    (main (some "hello world") "1700000000.0" "0123abcd" envAll).tsFile
      = some "hello world\n" ∧
    (main (some "hello world") "1700000000.0" "0123abcd" envAll).latestFile
      = some "hello world\n" := by
  have h := C3_opaque_passthrough "hello world" "1700000000.0" "0123abcd" envAll
    (by decide) rfl rfl rfl rfl rfl rfl rfl
  exact ⟨rfl, h.1, h.2⟩

/-- Claim C2 counterexample: with both opens succeeded and the content
write failing (the except on lines 88-90 calls sys.exit(1) without any
close), the process exits with both handles still open — the claim
that every successfully opened handle is closed on every exit path is
false on the OutputWriteError path. -/
theorem C2_counterexample :
    (main (some "x") "1700000000.0" "0123abcd" envWriteFail).exitCode = 1 ∧
    (main (some "x") "1700000000.0" "0123abcd" envWriteFail).tsHandle = some false ∧
    (main (some "x") "1700000000.0" "0123abcd" envWriteFail).latestHandle = some false :=
  ⟨rfl, rfl, rfl⟩

/-- Claim C2 as amended: the script attempts its closes only on lines
94-95, after every write succeeded, so on the handled error exits
(empty input, open failure, write failure — the sys.exit(1) calls of
lines 61, 77 and 90) no opened handle is ever closed, and both
handles have been closed exactly when the process exits 0. The
equivalence holds of the pair, not of each handle: when line 94's
close succeeds and only line 95's raises, the timestamp handle alone
has been closed while the process still exits 1 via an uncaught
exception. -/
theorem C2_handles_closed_iff_success (stdin : Option String) (t u : String) (env : Env) :
    (((main stdin t u env).tsHandle = some true ∧
      (main stdin t u env).latestHandle = some true)
      ↔ (main stdin t u env).exitCode = 0) ∧
    ((main stdin t u env).exitCode = 1 → (main stdin t u env).uncaught = false →
      (main stdin t u env).tsHandle ≠ some true ∧
      (main stdin t u env).latestHandle ≠ some true) := by
  cases stdin with
  | none => simp [main]
  | some s =>
    by_cases hs : s = ""
    · subst hs; simp [main]
    · obtain ⟨o1, o2, w, wn, cl1, cl2, m⟩ := env
      cases o1 <;> cases o2 <;> cases w <;> cases wn <;> cases cl1 <;> cases cl2 <;>
        simp [main, hs]

/-- Witness for C2 on the write-failure path: a handled error exit in
which both opened handles are left unclosed. -/
theorem C2_witness :
    (main (some "x") "1700000000.0" "0123abcd" envWriteFail).tsHandle ≠ some true ∧
    (main (some "x") "1700000000.0" "0123abcd" envWriteFail).latestHandle ≠ some true :=
  (C2_handles_closed_iff_success (some "x") "1700000000.0" "0123abcd" envWriteFail).2 rfl rfl

/-- Claim C6: whenever the process exits 0 it has printed OK, both
files hold the full content including the trailing newline, and both
handles were closed — the success report of line 97 comes strictly
after the newline writes and closes of lines 92-95. -/
theorem C6_success_fully_written (stdin : Option String) (t u : String) (env : Env)
    (h : (main stdin t u env).exitCode = 0) :
    "OK" ∈ (main stdin t u env).stdout ∧
    (∃ s, stdin = some s ∧
      (main stdin t u env).tsFile = some (contentOf s ++ "\n") ∧
      (main stdin t u env).latestFile = some (contentOf s ++ "\n")) ∧
    (main stdin t u env).tsHandle = some true ∧
    (main stdin t u env).latestHandle = some true := by
  cases stdin with
  | none => simp [main] at h
  | some s =>
    by_cases hs : s = ""
    · subst hs; simp [main] at h
    · obtain ⟨o1, o2, w, wn, cl1, cl2, m⟩ := env
      cases o1 <;> cases o2 <;> cases w <;> cases wn <;> cases cl1 <;> cases cl2 <;>
        simp_all [main]

/-- Witness for C6 on a concrete fully-successful run. -/
theorem C6_witness :
    "OK" ∈ (main (some "hi") "1700000000.0" "0123abcd" envAll).stdout ∧
    (∃ s, (some "hi" : Option String) = some s ∧
      (main (some "hi") "1700000000.0" "0123abcd" envAll).tsFile
        = some (contentOf s ++ "\n") ∧
      (main (some "hi") "1700000000.0" "0123abcd" envAll).latestFile
        = some (contentOf s ++ "\n")) ∧
    (main (some "hi") "1700000000.0" "0123abcd" envAll).tsHandle = some true ∧
    (main (some "hi") "1700000000.0" "0123abcd" envAll).latestHandle = some true :=
  C6_success_fully_written (some "hi") "1700000000.0" "0123abcd" envAll rfl

/-- Claim C7: classification is the total function of lines 63-70 —
Structured with the parsed document when json.loads succeeds, Opaque
otherwise — and a parse failure is never surfaced: with the I/O
succeeding, an unparseable non-empty input still ends in OK and exit
code 0. -/
theorem C7_classification_total (s t u : String) (env : Env)
    (hs : s ≠ "")
    (h1 : env.openTimestampOk = true) (h2 : env.openLatestOk = true)
    (h3 : env.writeOk = true) (h4 : env.writeNlOk = true)
    (h5 : env.closeTsOk = true) (h6 : env.closeLatestOk = true) :
    (∀ j, loads s = some j → classify s = .structured j) ∧
    (loads s = none → classify s = .opaque_ s) ∧
    (main (some s) t u env).exitCode = 0 ∧
    "OK" ∈ (main (some s) t u env).stdout := by
  refine ⟨fun j hj => by simp [classify, hj], fun hj => by simp [classify, hj], ?_, ?_⟩
  · obtain ⟨o1, o2, w, wn, cl1, cl2, m⟩ := env
    cases o1 <;> cases o2 <;> cases w <;> cases wn <;> cases cl1 <;> cases cl2 <;>
      simp_all [main]
  · obtain ⟨o1, o2, w, wn, cl1, cl2, m⟩ := env
    cases o1 <;> cases o2 <;> cases w <;> cases wn <;> cases cl1 <;> cases cl2 <;>
      simp_all [main]

/-- Witness for C7 on an input that is not structured. -/
theorem C7_witness :
    classify "not-json" = .opaque_ "not-json" ∧
    (main (some "not-json") "1700000000.0" "0123abcd" envAll).exitCode = 0 := by
  have h := C7_classification_total "not-json" "1700000000.0" "0123abcd" envAll
    (by decide) rfl rfl rfl rfl rfl rfl
  exact ⟨h.2.1 rfl, h.2.2.1⟩

/-- Claim C8: for every non-empty submission the unique target path
carries extension .json exactly when the parse succeeded and .txt
exactly when it failed (lines 67 and 70), while the latest target is
always the fixed path ending in _latest.txt (line 54), regardless of
classification. -/
theorem C8_filename_extensions (s t u : String) (env : Env) (hs : s ≠ "") :
    ((∃ p, (main (some s) t u env).tsPath = p ++ ".json") ↔ (loads s).isSome = true) ∧
    ((∃ p, (main (some s) t u env).tsPath = p ++ ".txt") ↔ (loads s).isSome = false) ∧
    (main (some s) t u env).latestPath = baseDir ++ my_name ++ "_latest.txt" ∧
    (∃ q, (main (some s) t u env).latestPath = q ++ "_latest.txt") := by
  obtain ⟨o1, o2, w, wn, cl1, cl2, m⟩ := env
  have hts : (main (some s) t u ⟨o1, o2, w, wn, cl1, cl2, m⟩).tsPath
      = (baseDir ++ my_name ++ ("_" ++ t ++ "_" ++ u)) ++
        (if (loads s).isSome then ".json" else ".txt") := by
    cases o1 <;> cases o2 <;> cases w <;> cases wn <;> cases cl1 <;> cases cl2 <;> simp [main, hs]
  have hlp : (main (some s) t u ⟨o1, o2, w, wn, cl1, cl2, m⟩).latestPath
      = baseDir ++ my_name ++ "_latest.txt" := by
    cases o1 <;> cases o2 <;> cases w <;> cases wn <;> cases cl1 <;> cases cl2 <;> simp [main, hs]
  refine ⟨?_, ?_, hlp, ⟨baseDir ++ my_name, by rw [hlp]⟩⟩
  · cases hj : (loads s).isSome with
    | false =>
      simp only [hj, Bool.false_eq_true, if_false] at hts
      constructor
      · rintro ⟨p, hp⟩
        rw [hts] at hp
        exact absurd hp (append_txt_ne_append_json _ p)
      · intro h; exact Bool.noConfusion h
    | true =>
      simp only [hj, if_true] at hts
      exact iff_of_true ⟨_, hts⟩ rfl
  · cases hj : (loads s).isSome with
    | false =>
      simp only [hj, Bool.false_eq_true, if_false] at hts
      exact iff_of_true ⟨_, hts⟩ rfl
    | true =>
      simp only [hj, if_true] at hts
      constructor
      · rintro ⟨p, hp⟩
        rw [hts] at hp
        exact absurd hp.symm (append_txt_ne_append_json p _)
      · intro h; exact Bool.noConfusion h

/-- Witness for C8 on a structured input. -/
theorem C8_witness :
    (∃ p, (main (some "1") "1700000000.0" "0123abcd" envAll).tsPath = p ++ ".json") ∧
    (main (some "1") "1700000000.0" "0123abcd" envAll).latestPath
      = baseDir ++ my_name ++ "_latest.txt" := by
  have h := C8_filename_extensions "1" "1700000000.0" "0123abcd" envAll (by decide)
  exact ⟨h.1.mpr rfl, h.2.2.1⟩

/-- The Content-Type header payload is not a result line. -/
theorem isResultLine_header : isResultLine header = false := rfl

/-- The empty-input message is a result line. -/
theorem isResultLine_emptyMsg : isResultLine emptyInputMsg = true := rfl

/-- The open-failure message is a result line. -/
theorem isResultLine_openFailMsg : isResultLine openFailMsg = true := rfl

/-- OK is a result line. -/
theorem isResultLine_ok : isResultLine "OK" = true := rfl

/-- The write-failure line never equals OK (their first characters
differ). -/
theorem writeFailLine_ne_ok (m : String) : writeFailLine m ≠ "OK" := by
  intro h
  have h2 : some 'E' = some 'O' := congrArg (fun s => s.data.head?) h
  exact absurd (Option.some.inj h2) (by decide)

/-- Claim C5 counterexample: when the unprotected trailing-newline
write of line 92 raises (it sits outside every try block), the
interpreter dies with an uncaught exception: the process exits 1
without emitting any result line at all, so it is not the case that
every invocation emits exactly one OK or Error: line. -/
theorem C5_counterexample :
    resultLines (main (some "x") "1700000000.0" "0123abcd" envNlFail) = [] ∧
    (main (some "x") "1700000000.0" "0123abcd" envNlFail).exitCode = 1 ∧
    (main (some "x") "1700000000.0" "0123abcd" envNlFail).uncaught = true :=
  ⟨rfl, rfl, rfl⟩

/-- Claim C5 as amended: on every invocation in which the unprotected
trailing-newline writes and closes of lines 92-95 do not themselves
fail, exactly one authoritative result line is emitted (OK or an
Error: line), and the exit code is 0 exactly when that line is OK. -/
theorem C5_single_result_line (stdin : Option String) (t u : String) (env : Env)
    (hn : env.writeNlOk = true)
    (hc1 : env.closeTsOk = true) (hc2 : env.closeLatestOk = true) :
    (resultLines (main stdin t u env)).length = 1 ∧
    ((main stdin t u env).exitCode = 0 ↔ resultLines (main stdin t u env) = ["OK"]) := by
  have hempty : ¬(emptyInputMsg = "OK") := by decide
  have hopen : ¬(openFailMsg = "OK") := by decide
  cases stdin with
  | none =>
    refine ⟨rfl, ?_⟩
    show (1 : Nat) = 0 ↔ [emptyInputMsg] = ["OK"]
    decide
  | some s =>
    by_cases hs : s = ""
    · subst hs
      refine ⟨rfl, ?_⟩
      show (1 : Nat) = 0 ↔ [emptyInputMsg] = ["OK"]
      decide
    · obtain ⟨o1, o2, w, wn, cl1, cl2, m⟩ := env
      have hn' : wn = true := hn
      have hc1' : cl1 = true := hc1
      have hc2' : cl2 = true := hc2
      subst hn' hc1' hc2'
      have hwm : ¬(writeFailLine m = "OK") := writeFailLine_ne_ok m
      cases o1 <;> cases o2 <;> cases w <;>
        simp_all [main, resultLines, isResultLine_header, isResultLine_emptyMsg,
          isResultLine_openFailMsg, isResultLine_ok, isResultLine_writeFailLine]

/-- Witness for C5 on a concrete fully-successful run. -/
theorem C5_witness :
    (resultLines (main (some "x") "1700000000.0" "0123abcd" envAll)).length = 1 ∧
    ((main (some "x") "1700000000.0" "0123abcd" envAll).exitCode = 0 ↔
      resultLines (main (some "x") "1700000000.0" "0123abcd" envAll) = ["OK"]) :=
  C5_single_result_line (some "x") "1700000000.0" "0123abcd" envAll rfl rfl rfl

/-- Claim C1 counterexample: on the spec's example input the script
stores the Python 2 rendering with a space after the comma at the end
of the first member line, not the claimed byte sequence without it. -/
theorem C1_counterexample :
    (main (some exInput) "1700000000.0" "0123abcd" envAll).tsFile ≠ some exClaimed ∧
    (main (some exInput) "1700000000.0" "0123abcd" envAll).tsFile = some exStored ∧
    (main (some exInput) "1700000000.0" "0123abcd" envAll).latestFile = some exStored := by
  refine ⟨by decide, rfl, rfl⟩

/-- Claim C1 as amended: for every input that parses as a structured
document, both files receive the identical serialisation of the
parsed document — keys sorted, 4-space indentation, Python 2's item
separator ", " at line ends — plus exactly one trailing newline; for
the example input the stored bytes are exStored. -/
theorem C1_structured_serialization (s t u : String) (env : Env) (j : Json)
    (hj : loads s = some j)
    (h1 : env.openTimestampOk = true) (h2 : env.openLatestOk = true)
    (h3 : env.writeOk = true) (h4 : env.writeNlOk = true)
    (h5 : env.closeTsOk = true) (h6 : env.closeLatestOk = true) :
    (main (some s) t u env).tsFile = some (dumps j ++ "\n") ∧
    (main (some s) t u env).latestFile = some (dumps j ++ "\n") ∧
    loads exInput = some exJson ∧
    dumps exJson ++ "\n" = exStored := by
  have hs : s ≠ "" := by
    intro h
    rw [h] at hj
    exact Option.noConfusion (loads_empty ▸ hj)
  obtain ⟨o1, o2, w, wn, cl1, cl2, m⟩ := env
  refine ⟨?_, ?_, rfl, rfl⟩
  all_goals
    cases o1 <;> cases o2 <;> cases w <;> cases wn <;> cases cl1 <;> cases cl2 <;>
      simp_all [main, contentOf]

/-- Witness for C1 at the example input. -/
theorem C1_witness :
    (main (some exInput) "1700000000.0" "0123abcd" envAll).tsFile
      = some (dumps exJson ++ "\n") ∧
    (main (some exInput) "1700000000.0" "0123abcd" envAll).latestFile
      = some (dumps exJson ++ "\n") := by
  have h := C1_structured_serialization exInput "1700000000.0" "0123abcd" envAll exJson
    rfl rfl rfl rfl rfl rfl rfl
  exact ⟨h.1, h.2.1⟩

end SavePost
